import Mathlib

/-!
# cloudflare-ddns-updater: the update cycle of `main.go`

A shallow embedding of `main.go` (`main`, `runUpdate`, `getExternalIP`,
`executeRequest`) and the properties of one update cycle.

Modelling conventions.

* Go strings and byte slices that carry text are Lean `String`s; a `nil`
  byte slice passed as a request body is `none`.
* Go `error` values are modelled by their message text; `nil` is `none`.
  The text of errors raised inside libraries (`net/http`, resty,
  `encoding/json`) is supplied by the environment or is indicative only; no
  statement depends on it.
* The network is an explicit parameter (`World`): a function from the call
  that is issued to what comes back.  The three calls of a cycle differ from
  one another, so a function of the call describes every network.  Every
  call and every line written to standard output is recorded, in program
  order, in a list of `Event`s.
* `fmt.Sprintf`/`fmt.Printf` with `%s`/`%v` verbs on strings and errors is
  string concatenation; `fmt.Println` appends a line feed.
* `json.Unmarshal` at type `CloudflareResponse` is a parameter of
  `runUpdate` and `main`, so the general statements hold for every decoder;
  `jsonUnmarshal` is a model of the library function, used where a
  statement is evaluated on a concrete response body.
-/

namespace CloudflareDDNS

/-! ## Data model (`main.go` lines 16-32) -/

/-- The record type `DNSRecord`: `ID` is the JSON member `id`, `Content` the
member `content`. -/
structure DNSRecord where
  ID : String
  Content : String
deriving DecidableEq, Repr

/-- The response type `CloudflareResponse`. -/
structure CloudflareResponse where
  Result : List DNSRecord
  Success : Bool
  Errors : List String
  Messages : List String
deriving DecidableEq, Repr

/-- The three package-level variables set from the command line. -/
structure Config where
  authToken : String
  zoneIdentifier : String
  recordName : String
deriving DecidableEq, Repr

/-! ## The network -/

/-- One outbound HTTP call as the program issues it.  `timeout` is the
`Timeout` of the client the call goes through, in seconds, with Go's
convention that `0` means no timeout. -/
structure Request where
  timeout : Nat
  method : String
  url : String
  data : Option String
  headers : List (String × String)
deriving DecidableEq, Repr

/-- What comes back from a call: the transport failed, the response arrived
but reading its body failed, or a response with a status code and a body. -/
inductive HttpResult where
  | transportError (msg : String)
  | bodyReadError (msg : String)
  | response (status : Nat) (body : String)
deriving DecidableEq, Repr

/-- The environment of a cycle. -/
structure World where
  send : Request → HttpResult

/-- Observable actions, in program order. -/
inductive Event where
  | print (text : String)
  | http (req : Request)
  | cronAddFunc (spec : String)
  | cronStart
  | block
deriving DecidableEq, Repr

/-- The result of running a cycle: what it did and the `error` it returned. -/
structure Outcome where
  events : List Event
  err : Option String
deriving DecidableEq, Repr

/-- The HTTP calls among a list of events, in order. -/
def requestsOf : List Event → List Request
  | [] => []
  | Event.http r :: es => r :: requestsOf es
  | _ :: es => requestsOf es

/-- The text written to standard output by a list of events, in order. -/
def outputOf : List Event → List String
  | [] => []
  | Event.print s :: es => s :: outputOf es
  | _ :: es => outputOf es

/-- The HTTP calls of a cycle. -/
def Outcome.requests (o : Outcome) : List Request := requestsOf o.events

/-- The update calls (method `PUT`) of a cycle. -/
def Outcome.updates (o : Outcome) : List Request :=
  o.requests.filter (fun r => r.method == "PUT")

/-! ## `strings.TrimSpace` -/

/-- Go's `unicode.IsSpace`: the Unicode White_Space property. -/
def isSpace (c : Char) : Bool :=
  let n := c.toNat
  n == 0x09 || n == 0x0A || n == 0x0B || n == 0x0C || n == 0x0D || n == 0x20 ||
  n == 0x85 || n == 0xA0 || n == 0x1680 || (0x2000 ≤ n && n ≤ 0x200A) ||
  n == 0x2028 || n == 0x2029 || n == 0x202F || n == 0x205F || n == 0x3000

/-- Go's `strings.TrimSpace`: leading and trailing white space removed. -/
def trimSpace (s : String) : String :=
  String.mk ((s.data.dropWhile isSpace).reverse.dropWhile isSpace).reverse

/-! ## `getExternalIP` (lines 123-137) and `executeRequest` (lines 139-150) -/

/-- The call `http.Get("https://icanhazip.com/")`: the default client, which
has no timeout, no body and no header set by the program. -/
def ipRequest : Request :=
  Request.mk 0 "GET" "https://icanhazip.com/" none []

/-- `getExternalIP`: a failed `http.Get` or a failed `ioutil.ReadAll` is
returned as the error; otherwise the body, trimmed. -/
def getExternalIP (w : World) : List Event × Except String String :=
  match w.send ipRequest with
  | HttpResult.transportError e => ([Event.http ipRequest], Except.error e)
  | HttpResult.bodyReadError e => ([Event.http ipRequest], Except.error e)
  | HttpResult.response _ ipBytes => ([Event.http ipRequest], Except.ok (trimSpace ipBytes))

/-- `executeRequest`: a fresh resty client with a ten-second timeout and the
given headers; the response body is returned whatever the status. -/
def executeRequest (w : World) (method url : String) (data : Option String)
    (headers : List (String × String)) : List Event × Except String String :=
  let req := Request.mk 10 method url data headers
  match w.send req with
  | HttpResult.transportError e => ([Event.http req], Except.error e)
  | HttpResult.bodyReadError e => ([Event.http req], Except.error e)
  | HttpResult.response _ body => ([Event.http req], Except.ok body)

/-! ## `runUpdate` (lines 63-121) -/

/-- The map `headerAuthParamHeader` (lines 72-75). -/
def headerAuthParamHeader (cfg : Config) : List (String × String) :=
  if cfg.authToken ≠ "" then [("Authorization", "Bearer " ++ cfg.authToken)] else []

/-- The URL of the record lookup (line 77). -/
def seekCurrentDNSValueURL (cfg : Config) : String :=
  "https://api.cloudflare.com/client/v4/zones/" ++ cfg.zoneIdentifier ++
    "/dns_records?name=" ++ cfg.recordName ++ "&type=A"

/-- The body of the update (line 110): the first `%s` is filled with
`zoneIdentifier`, the second with `recordName`, the third with `ip`. -/
def jsonDataV4 (cfg : Config) (ip : String) : String :=
  "\x7b\"id\":\"" ++ cfg.zoneIdentifier ++ "\",\"type\":\"A\",\"proxied\":false,\"name\":\"" ++
    cfg.recordName ++ "\",\"content\":\"" ++ ip ++ "\",\"ttl\":120\x7d"

/-- The URL of the update (line 111). -/
def updateURL (cfg : Config) (record : DNSRecord) : String :=
  "https://api.cloudflare.com/client/v4/zones/" ++ cfg.zoneIdentifier ++
    "/dns_records/" ++ record.ID

/-- The function `runUpdate`.  `unmarshal` stands for `json.Unmarshal` into a
zero `CloudflareResponse`. -/
def runUpdate (unmarshal : String → Except String CloudflareResponse)
    (cfg : Config) (w : World) : Outcome :=
  let evs := [Event.print "Check Initiated\n"]
  match getExternalIP w with
  | (evs1, Except.error e) =>
    Outcome.mk (evs ++ evs1) (some ("Network error, cannot fetch external network IP: " ++ e))
  | (evs1, Except.ok ip) =>
    let evs := evs ++ evs1 ++
      [Event.print ("  > Fetched current external network IP: " ++ ip ++ "\n")]
    match executeRequest w "GET" (seekCurrentDNSValueURL cfg) none (headerAuthParamHeader cfg) with
    | (evs2, Except.error e) =>
      Outcome.mk (evs ++ evs2) (some ("Network error, cannot fetch DNS record: " ++ e))
    | (evs2, Except.ok response) =>
      let evs := evs ++ evs2
      match unmarshal response with
      | Except.error e => Outcome.mk evs (some ("Error decoding JSON response: " ++ e))
      | Except.ok cfResponse =>
        if !cfResponse.Success then
          Outcome.mk (evs ++ [Event.print "Error in Cloudflare API response.\n"]) none
        else
          match cfResponse.Result with
          | [] => Outcome.mk (evs ++ [Event.print "No DNS records found.\n"]) none
          | record :: _ =>
            let evs := evs ++
              [Event.print ("  > Fetched current DNS record value   : " ++ record.Content ++ "\n")]
            if ip = record.Content then
              Outcome.mk
                (evs ++ [Event.print ("Update for A record '" ++ record.ID ++
                  "' cancelled.\n  Reason: IP has not changed.\n")])
                none
            else
              let evs := evs ++
                [Event.print "  > Different IP addresses detected, synchronizing...\n"]
              match executeRequest w "PUT" (updateURL cfg record) (some (jsonDataV4 cfg ip))
                  (headerAuthParamHeader cfg) with
              | (evs3, Except.error e) => Outcome.mk (evs ++ evs3) (some ("Update error: " ++ e))
              | (evs3, Except.ok _) =>
                Outcome.mk
                  (evs ++ evs3 ++ [Event.print ("Update for A record '" ++ record.ID ++
                    "' succeeded.\n  - Old value: " ++ record.Content ++
                    "\n  + New value: " ++ ip ++ "\n")])
                  none

/-! ## A model of `encoding/json` at type `CloudflareResponse`

`json.Unmarshal` first checks that the whole input is one well-formed JSON
value (a malformed input is rejected before anything is stored), then
stores the value into the target.  The model does the same in two stages:
`parseJson` (lexer and a stack parser) and `decodeResponse`. -/

/-- JSON values. -/
inductive Json where
  | null
  | bool (b : Bool)
  | number (literal : String)
  | string (s : String)
  | array (items : List Json)
  | object (members : List (String × Json))

/-- Lexical tokens of JSON. -/
inductive Token where
  | lbrace
  | rbrace
  | lbrack
  | rbrack
  | colon
  | comma
  | str (s : String)
  | num (literal : String)
  | lit (v : Json)

/-- The value of a hexadecimal digit. -/
def hexVal (c : Char) : Option Nat :=
  let n := c.toNat
  if 48 ≤ n && n ≤ 57 then some (n - 48)
  else if 97 ≤ n && n ≤ 102 then some (n - 87)
  else if 65 ≤ n && n ≤ 70 then some (n - 55)
  else none

/-- Four hexadecimal digits at the head of the input (Go's `getu4` after the
two characters of the escape introducer). -/
def hex4 : List Char → Option Nat
  | a :: b :: c :: d :: _ =>
    match hexVal a, hexVal b, hexVal c, hexVal d with
    | some x, some y, some z, some t => some (((x * 16 + y) * 16 + z) * 16 + t)
    | _, _, _, _ => none
  | _ => none

/-- A second escape of the form backslash, `u`, four hexadecimal digits. -/
def getu4 : List Char → Option Nat
  | '\\' :: 'u' :: rest => hex4 rest
  | _ => none

/-- The characters after a backslash inside a string: the character the
escape stands for and how many input characters follow the backslash.  A
surrogate half that is not followed by its other half becomes U+FFFD. -/
def unescape : List Char → Option (Char × Nat)
  | [] => none
  | c :: rest =>
    if c = '"' then some ('"', 1)
    else if c = '\\' then some ('\\', 1)
    else if c = '/' then some ('/', 1)
    else if c = 'b' then some (Char.ofNat 8, 1)
    else if c = 'f' then some (Char.ofNat 12, 1)
    else if c = 'n' then some ('\n', 1)
    else if c = 'r' then some ('\r', 1)
    else if c = 't' then some ('\t', 1)
    else if c = 'u' then
      match hex4 rest with
      | none => none
      | some rr =>
        if 0xD800 ≤ rr && rr < 0xE000 then
          match getu4 (rest.drop 4) with
          | some rr1 =>
            if rr < 0xDC00 && 0xDC00 ≤ rr1 && rr1 < 0xE000 then
              some (Char.ofNat ((rr - 0xD800) * 1024 + (rr1 - 0xDC00) + 0x10000), 11)
            else some (Char.ofNat 0xFFFD, 5)
          | none => some (Char.ofNat 0xFFFD, 5)
        else some (Char.ofNat rr, 5)
    else none

/-- The rest of a string literal after its opening quote: the decoded text
and the number of characters consumed, closing quote included.  `skip`
counts characters of an escape still to pass over. -/
def lexString : List Char → Nat → List Char → Nat → Option (String × Nat)
  | [], _, _, _ => none
  | _ :: rest, skip + 1, acc, n => lexString rest skip acc (n + 1)
  | c :: rest, 0, acc, n =>
    if c = '"' then some (String.mk acc.reverse, n + 1)
    else if c = '\\' then
      match unescape rest with
      | none => none
      | some (ch, k) => lexString rest k (ch :: acc) (n + 1)
    else if c.toNat < 0x20 then none
    else lexString rest 0 (c :: acc) (n + 1)

/-- A decimal digit. -/
def isDigit (c : Char) : Bool := 48 ≤ c.toNat && c.toNat ≤ 57

/-- The optional exponent of a number: the characters it takes. -/
def lexExponent (cs : List Char) : Option (List Char) :=
  match cs with
  | e :: rest =>
    if e = 'e' || e = 'E' then
      let sign := rest.takeWhile (fun c => c = '+' || c = '-') |>.take 1
      let digits := (rest.drop sign.length).takeWhile isDigit
      if digits.isEmpty then none else some (e :: sign ++ digits)
    else some []
  | [] => some []

/-- The optional fraction of a number: the characters it takes. -/
def lexFraction (cs : List Char) : Option (List Char) :=
  match cs with
  | d :: rest =>
    if d = '.' then
      let digits := rest.takeWhile isDigit
      if digits.isEmpty then none else some (d :: digits)
    else some []
  | [] => some []

/-- The integer part of a number: a single `0`, or a non-zero digit and the
digits after it. -/
def lexInteger (cs : List Char) : Option (List Char) :=
  match cs with
  | d :: rest =>
    if d = '0' then some [d]
    else if isDigit d then some (d :: rest.takeWhile isDigit)
    else none
  | [] => none

/-- A number at the head of the input: its characters. -/
def lexNumber (cs : List Char) : Option (List Char) :=
  let sign := (cs.takeWhile (fun c => c = '-')).take 1
  match lexInteger (cs.drop sign.length) with
  | none => none
  | some int =>
    match lexFraction (cs.drop (sign.length + int.length)) with
    | none => none
    | some frac =>
      match lexExponent (cs.drop (sign.length + int.length + frac.length)) with
      | none => none
      | some exp => some (sign ++ int ++ frac ++ exp)

/-- Whether the input starts with the given characters. -/
def startsWith (word : List Char) (cs : List Char) : Bool := cs.take word.length == word

/-- The token (none for white space) that starts at the head of a non-empty
input, and its length in characters. -/
def lexAt (cs : List Char) : Option (Option Token × Nat) :=
  match cs with
  | [] => none
  | c :: rest =>
    if c = ' ' || c = '\t' || c = '\r' || c = '\n' then some (none, 1)
    else if c = '\x7b' then some (some Token.lbrace, 1)
    else if c = '\x7d' then some (some Token.rbrace, 1)
    else if c = '[' then some (some Token.lbrack, 1)
    else if c = ']' then some (some Token.rbrack, 1)
    else if c = ':' then some (some Token.colon, 1)
    else if c = ',' then some (some Token.comma, 1)
    else if c = '"' then
      match lexString rest 0 [] 1 with
      | none => none
      | some (s, n) => some (some (Token.str s), n)
    else if c = '-' || isDigit c then
      match lexNumber cs with
      | none => none
      | some lit => some (some (Token.num (String.mk lit)), lit.length)
    else if startsWith "true".data cs then some (some (Token.lit (Json.bool true)), 4)
    else if startsWith "false".data cs then some (some (Token.lit (Json.bool false)), 5)
    else if startsWith "null".data cs then some (some (Token.lit Json.null), 4)
    else none

/-- The tokens of an input, or none when some character starts no token.
`skip` counts the characters of the current token still to pass over;
`acc` holds the tokens so far, last first. -/
def tokenize : List Char → Nat → List Token → Option (List Token)
  | [], _, acc => some acc.reverse
  | _ :: rest, skip + 1, acc => tokenize rest skip acc
  | c :: rest, 0, acc =>
    match lexAt (c :: rest) with
    | none => none
    | some (none, n) => tokenize rest (n - 1) acc
    | some (some t, n) => tokenize rest (n - 1) (t :: acc)

/-- An open container on the parser's stack: an array with its items so far
(last first), or an object with its members so far (last first) and the key
whose value is awaited. -/
inductive Frame where
  | arr (items : List Json)
  | obj (members : List (String × Json)) (key : String)

/-- What the parser awaits next. -/
inductive Expect where
  | value
  | valueOrEnd
  | key
  | keyOrEnd
  | colon
  | sepOrEnd
  | done (v : Json)

/-- The nesting limit of Go's scanner. -/
def maxNestingDepth : Nat := 10000

/-- A value has been completed: it is the whole document or goes into the
innermost open container. -/
def complete (v : Json) : List Frame → List Frame × Expect
  | [] => ([], Expect.done v)
  | Frame.arr items :: st => (Frame.arr (v :: items) :: st, Expect.sepOrEnd)
  | Frame.obj ms k :: st => (Frame.obj ((k, v) :: ms) k :: st, Expect.sepOrEnd)

/-- Opening a container, within the nesting limit. -/
def pushFrame (f : Frame) (st : List Frame) (e : Expect) : Option (List Frame × Expect) :=
  if st.length + 1 ≤ maxNestingDepth then some (f :: st, e) else none

/-- A token where a value may start. -/
def stepValue (st : List Frame) (orEnd : Bool) : Token → Option (List Frame × Expect)
  | Token.str s => some (complete (Json.string s) st)
  | Token.num l => some (complete (Json.number l) st)
  | Token.lit v => some (complete v st)
  | Token.lbrack => pushFrame (Frame.arr []) st Expect.valueOrEnd
  | Token.lbrace => pushFrame (Frame.obj [] "") st Expect.keyOrEnd
  | Token.rbrack =>
    match orEnd, st with
    | true, Frame.arr _ :: st => some (complete (Json.array []) st)
    | _, _ => none
  | _ => none

/-- A token where a key may start. -/
def stepKey (st : List Frame) (orEnd : Bool) : Token → Option (List Frame × Expect)
  | Token.str k =>
    match st with
    | Frame.obj ms _ :: st => some (Frame.obj ms k :: st, Expect.colon)
    | _ => none
  | Token.rbrace =>
    match orEnd, st with
    | true, Frame.obj _ _ :: st => some (complete (Json.object []) st)
    | _, _ => none
  | _ => none

/-- A token after a value inside a container. -/
def stepSep (st : List Frame) : Token → Option (List Frame × Expect)
  | Token.comma =>
    match st with
    | Frame.arr _ :: _ => some (st, Expect.value)
    | Frame.obj _ _ :: _ => some (st, Expect.key)
    | [] => none
  | Token.rbrack =>
    match st with
    | Frame.arr items :: st => some (complete (Json.array items.reverse) st)
    | _ => none
  | Token.rbrace =>
    match st with
    | Frame.obj ms _ :: st => some (complete (Json.object ms.reverse) st)
    | _ => none
  | _ => none

/-- One step of the parser. -/
def stepParser (st : List Frame) (e : Expect) (t : Token) : Option (List Frame × Expect) :=
  match e with
  | Expect.value => stepValue st false t
  | Expect.valueOrEnd => stepValue st true t
  | Expect.key => stepKey st false t
  | Expect.keyOrEnd => stepKey st true t
  | Expect.colon =>
    match t with
    | Token.colon => some (st, Expect.value)
    | _ => none
  | Expect.sepOrEnd => stepSep st t
  | Expect.done _ => none

/-- The parser run over the tokens. -/
def runParser : List Token → List Frame → Expect → Option Json
  | [], [], Expect.done v => some v
  | [], _, _ => none
  | t :: ts, st, e =>
    match stepParser st e t with
    | none => none
    | some (st, e) => runParser ts st e

/-- The JSON value an input denotes, or none when it is malformed. -/
def parseJson (input : String) : Option Json :=
  match tokenize input.data 0 [] with
  | none => none
  | some ts => runParser ts [] Expect.value

/-- Go's name for the kind of a JSON value in a type-mismatch error. -/
def Json.kind : Json → String
  | Json.null => "null"
  | Json.bool _ => "bool"
  | Json.number _ => "number"
  | Json.string _ => "string"
  | Json.array _ => "array"
  | Json.object _ => "object"

/-- The error for a JSON value that does not fit the Go type it is stored
into (`UnmarshalTypeError`; the field path of the message is left out). -/
def typeError (v : Json) (goType : String) : String :=
  "json: cannot unmarshal " ++ v.kind ++ " into Go value of type " ++ goType

/-- Unmarshal reports the earliest error. -/
def firstError (earlier later : Option String) : Option String :=
  match earlier with
  | some e => some e
  | none => later

/-- Case folding of a key character as far as it can reach an ASCII letter:
upper-case ASCII, the long s and the Kelvin sign. -/
def foldChar (c : Char) : Char :=
  let n := c.toNat
  if 65 ≤ n && n ≤ 90 then Char.ofNat (n + 32)
  else if n = 0x17F then 's'
  else if n = 0x212A then 'k'
  else c

/-- Whether an object key selects the struct field with the given
(lower-case ASCII) JSON name: exactly or up to case folding. -/
def keyMatches (field key : String) : Bool := key.data.map foldChar == field.data

/-- A Go slice as the decoder sees it: the backing array as far as it has
been written, and the length. -/
structure Slice (α : Type) where
  store : List α
  len : Nat

/-- The elements of a slice. -/
def Slice.toList {α : Type} (s : Slice α) : List α := s.store.take s.len

/-- Storing a JSON value into a `string`. -/
def decodeString (old : String) : Json → String × Option String
  | Json.string s => (s, none)
  | Json.null => (old, none)
  | v => (old, some (typeError v "string"))

/-- Storing a JSON value into a `bool`. -/
def decodeBool (old : Bool) : Json → Bool × Option String
  | Json.bool b => (b, none)
  | Json.null => (old, none)
  | v => (old, some (typeError v "bool"))

/-- Storing one object member into a `DNSRecord`. -/
def decodeRecordMember (acc : DNSRecord × Option String) (m : String × Json) :
    DNSRecord × Option String :=
  if keyMatches "id" m.1 then
    let r := decodeString acc.1.ID m.2
    (DNSRecord.mk r.1 acc.1.Content, firstError acc.2 r.2)
  else if keyMatches "content" m.1 then
    let r := decodeString acc.1.Content m.2
    (DNSRecord.mk acc.1.ID r.1, firstError acc.2 r.2)
  else acc

/-- Storing a JSON value into a `DNSRecord`: the members of an object in
order, unknown keys ignored. -/
def decodeRecord (old : DNSRecord) : Json → DNSRecord × Option String
  | Json.object members => members.foldl decodeRecordMember (old, none)
  | Json.null => (old, none)
  | v => (old, some (typeError v "main.DNSRecord"))

/-- Storing the items of a JSON array into the slots of a backing array:
item `i` is stored into slot `i` as it stands, or into a zero value when
the backing array is shorter.  Returns the slots written. -/
def decodeItems {α : Type} (decodeElem : α → Json → α × Option String) (zero : α) :
    List α → List Json → List α × Option String
  | _, [] => ([], none)
  | store, item :: items =>
    let r := decodeElem (store.headD zero) item
    let rs := decodeItems decodeElem zero store.tail items
    (r.1 :: rs.1, firstError r.2 rs.2)

/-- Storing a JSON value into a slice: an array fills the slice from its
first slot and sets the length (an empty array gives a fresh empty slice),
`null` gives the nil slice. -/
def decodeSlice {α : Type} (decodeElem : α → Json → α × Option String) (zero : α)
    (goType : String) (old : Slice α) : Json → Slice α × Option String
  | Json.array [] => (Slice.mk [] 0, none)
  | Json.array items =>
    let r := decodeItems decodeElem zero old.store items
    (Slice.mk (r.1 ++ old.store.drop items.length) items.length, r.2)
  | Json.null => (Slice.mk [] 0, none)
  | v => (old, some (typeError v goType))

/-- The target of `json.Unmarshal` while it is being filled. -/
structure Target where
  result : Slice DNSRecord
  success : Bool
  errors : Slice String
  messages : Slice String
  err : Option String

/-- The zero `CloudflareResponse` of line 83. -/
def Target.zero : Target := Target.mk (Slice.mk [] 0) false (Slice.mk [] 0) (Slice.mk [] 0) none

/-- Storing one object member into the response. -/
def decodeMember (t : Target) (m : String × Json) : Target :=
  if keyMatches "result" m.1 then
    let r := decodeSlice decodeRecord (DNSRecord.mk "" "") "[]main.DNSRecord" t.result m.2
    Target.mk r.1 t.success t.errors t.messages (firstError t.err r.2)
  else if keyMatches "success" m.1 then
    let r := decodeBool t.success m.2
    Target.mk t.result r.1 t.errors t.messages (firstError t.err r.2)
  else if keyMatches "errors" m.1 then
    let r := decodeSlice decodeString "" "[]string" t.errors m.2
    Target.mk t.result t.success r.1 t.messages (firstError t.err r.2)
  else if keyMatches "messages" m.1 then
    let r := decodeSlice decodeString "" "[]string" t.messages m.2
    Target.mk t.result t.success t.errors r.1 (firstError t.err r.2)
  else t

/-- Storing a JSON value into the response. -/
def decodeResponse : Json → Target
  | Json.object members => members.foldl decodeMember Target.zero
  | Json.null => Target.zero
  | v => Target.mk (Slice.mk [] 0) false (Slice.mk [] 0) (Slice.mk [] 0)
      (some (typeError v "main.CloudflareResponse"))

/-- A model of `json.Unmarshal(data, &cfResponse)` for a zero `cfResponse`:
the error, or the value stored.  The message text of the errors is only
indicative. -/
def jsonUnmarshal (data : String) : Except String CloudflareResponse :=
  match parseJson data with
  | none => Except.error "invalid JSON input"
  | some v =>
    let t := decodeResponse v
    match t.err with
    | some e => Except.error e
    | none => Except.ok
        (CloudflareResponse.mk t.result.toList t.success t.errors.toList t.messages.toList)

/-- A failure response in the shape the provider sends: `success` false and
an `errors` list whose entries are objects. -/
def authErrorBody : String :=
  "\x7b\"success\":false,\"errors\":[\x7b\"code\":10000,\"message\":\"Authentication error\"\x7d]," ++
    "\"messages\":[],\"result\":null\x7d"

/-- A failure response whose `errors` list holds strings. -/
def plainErrorBody : String :=
  "\x7b\"success\":false,\"errors\":[\"Authentication error\"],\"messages\":[],\"result\":null\x7d"

/-! ## `main` (lines 34-61) -/

/-- The function `main` after `flag.Parse()` has filled the three variables:
the events of the process up to the point where it blocks.  The callback
registered with the scheduler runs later, on the scheduler's own goroutine,
and is recorded only as registered. -/
def main (unmarshal : String → Except String CloudflareResponse)
    (cfg : Config) (w : World) : List Event :=
  if cfg.authToken = "" || cfg.zoneIdentifier = "" || cfg.recordName = "" then
    [Event.print
      "Please provide all required parameters: -authToken, -zoneIdentifier, -recordName\n"]
  else
    let o := runUpdate unmarshal cfg w
    let evs := match o.err with
      | some err => o.events ++ [Event.print ("First update error: " ++ err ++ "\n")]
      | none => o.events
    evs ++ [Event.cronAddFunc "@hourly", Event.cronStart, Event.block]



/-! ## Names for the calls of a cycle and for concrete scenarios -/

/-- Whether a call came back without a body: the transport failed or the
body could not be read. -/
def HttpResult.failed : HttpResult → Bool
  | HttpResult.transportError _ => true
  | HttpResult.bodyReadError _ => true
  | HttpResult.response _ _ => false

/-- The call of line 78, as `executeRequest` issues it. -/
def recordRequest (cfg : Config) : Request :=
  Request.mk 10 "GET" (seekCurrentDNSValueURL cfg) none (headerAuthParamHeader cfg)

/-- The call of line 113, as `executeRequest` issues it. -/
def updateRequest (cfg : Config) (ip : String) (record : DNSRecord) : Request :=
  Request.mk 10 "PUT" (updateURL cfg record) (some (jsonDataV4 cfg ip)) (headerAuthParamHeader cfg)

/-- The events of a cycle up to and including the record lookup: lines 64-78. -/
def lookupEvents (cfg : Config) (ip : String) : List Event :=
  [Event.print "Check Initiated\n", Event.http ipRequest,
   Event.print ("  > Fetched current external network IP: " ++ ip ++ "\n"),
   Event.http (recordRequest cfg)]

/-- The events of lines 101-113: the record is shown, found to differ and the
update is issued. -/
def updateEvents (cfg : Config) (ip : String) (record : DNSRecord) : List Event :=
  [Event.print ("  > Fetched current DNS record value   : " ++ record.Content ++ "\n"),
   Event.print "  > Different IP addresses detected, synchronizing...\n",
   Event.http (updateRequest cfg ip record)]

/-- A configuration used in the concrete scenarios. -/
def sampleConfig : Config := Config.mk "s3cr3t" "zone1" "home.example.com"

/-- A world in which the IP lookup answers `ipResult` and every other call
answers `apiResult`. -/
def sampleWorld (ipResult apiResult : HttpResult) : World :=
  World.mk (fun req => if req = ipRequest then ipResult else apiResult)

/-- A world in which the IP lookup answers `ipResult`, a `PUT` answers
`updateResult` and every other call answers `lookupResult`. -/
def scenarioWorld (ipResult lookupResult updateResult : HttpResult) : World :=
  World.mk (fun req =>
    if req = ipRequest then ipResult
    else if req.method = "PUT" then updateResult
    else lookupResult)

/-- The record-lookup response of the scenarios of the specification. -/
def sampleBody : String :=
  "\x7b\"result\":[\x7b\"id\":\"abc123\",\"content\":\"203.0.113.5\"\x7d],\"success\":true\x7d"


/-! ## The decoder and the `success` member -/

theorem decodeMember_success (t : Target) (m : String × Json)
    (h : keyMatches "success" m.1 = true → m.2 = Json.bool false ∨ m.2 = Json.null)
    (ht : t.success = false) : (decodeMember t m).success = false := by
  obtain ⟨k, v⟩ := m
  unfold decodeMember
  by_cases h1 : keyMatches "result" k = true
  · simp [h1, ht]
  · by_cases h2 : keyMatches "success" k = true
    · rcases h h2 with hv | hv
      · simp only at hv
        simp [h1, h2, hv, decodeBool]
      · simp only at hv
        simp [h1, h2, hv, decodeBool, ht]
    · by_cases h3 : keyMatches "errors" k = true
      · simp [h1, h2, h3, ht]
      · by_cases h4 : keyMatches "messages" k = true
        · simp [h1, h2, h3, h4, ht]
        · simp [h1, h2, h3, h4, ht]

theorem foldl_decodeMember_success (ms : List (String × Json)) (t : Target)
    (h : ∀ m ∈ ms, keyMatches "success" m.1 = true → m.2 = Json.bool false ∨ m.2 = Json.null)
    (ht : t.success = false) : (ms.foldl decodeMember t).success = false := by
  induction ms generalizing t with
  | nil => simpa using ht
  | cons m ms ih =>
    rw [List.foldl_cons]
    exact ih _ (fun m' hm' => h m' (List.mem_cons_of_mem _ hm'))
      (decodeMember_success t m (h m (List.mem_cons_self _ _)) ht)

/-- A JSON object in which every member that selects the field `Success` is
`false` or `null`, in particular one with no such member, decodes (when it
decodes) to a response whose `Success` is false. -/
theorem jsonUnmarshal_success_false (body : String) (ms : List (String × Json))
    (r : CloudflareResponse)
    (hp : parseJson body = some (Json.object ms))
    (h : ∀ m ∈ ms, keyMatches "success" m.1 = true → m.2 = Json.bool false ∨ m.2 = Json.null)
    (hd : jsonUnmarshal body = Except.ok r) : r.Success = false := by
  unfold jsonUnmarshal at hd
  rw [hp] at hd
  simp only at hd
  cases he : (decodeResponse (Json.object ms)).err with
  | some e => rw [he] at hd; simp at hd
  | none =>
    rw [he] at hd
    simp only [Except.ok.injEq] at hd
    rw [← hd]
    exact foldl_decodeMember_success ms Target.zero h rfl

/-! ## The outcome of a cycle, branch by branch -/

theorem runUpdate_ip_failed (unmarshal : String → Except String CloudflareResponse)
    (cfg : Config) (w : World) (h : (w.send ipRequest).failed = true) :
    ∃ e, runUpdate unmarshal cfg w =
      Outcome.mk [Event.print "Check Initiated\n", Event.http ipRequest]
        (some ("Network error, cannot fetch external network IP: " ++ e)) := by
  cases hs : w.send ipRequest with
  | transportError e => exact ⟨e, by simp [runUpdate, getExternalIP, hs]⟩
  | bodyReadError e => exact ⟨e, by simp [runUpdate, getExternalIP, hs]⟩
  | response s b => simp [hs, HttpResult.failed] at h

theorem runUpdate_lookup_failed (unmarshal : String → Except String CloudflareResponse)
    (cfg : Config) (w : World) (s : Nat) (ipBody : String)
    (hip : w.send ipRequest = HttpResult.response s ipBody)
    (h : (w.send (recordRequest cfg)).failed = true) :
    ∃ e, runUpdate unmarshal cfg w =
      Outcome.mk (lookupEvents cfg (trimSpace ipBody))
        (some ("Network error, cannot fetch DNS record: " ++ e)) := by
  unfold recordRequest at h
  cases hs : w.send (Request.mk 10 "GET" (seekCurrentDNSValueURL cfg) none
      (headerAuthParamHeader cfg)) with
  | transportError e =>
    exact ⟨e, by simp [runUpdate, getExternalIP, executeRequest, hip, hs, lookupEvents,
      recordRequest]⟩
  | bodyReadError e =>
    exact ⟨e, by simp [runUpdate, getExternalIP, executeRequest, hip, hs, lookupEvents,
      recordRequest]⟩
  | response s b => simp [hs, HttpResult.failed] at h

theorem runUpdate_decode_failed (unmarshal : String → Except String CloudflareResponse)
    (cfg : Config) (w : World) (s s2 : Nat) (ipBody body e : String)
    (hip : w.send ipRequest = HttpResult.response s ipBody)
    (hrec : w.send (recordRequest cfg) = HttpResult.response s2 body)
    (hdec : unmarshal body = Except.error e) :
    runUpdate unmarshal cfg w =
      Outcome.mk (lookupEvents cfg (trimSpace ipBody))
        (some ("Error decoding JSON response: " ++ e)) := by
  unfold recordRequest at hrec
  simp [runUpdate, getExternalIP, executeRequest, hip, hrec, hdec, lookupEvents, recordRequest]

theorem runUpdate_not_success (unmarshal : String → Except String CloudflareResponse)
    (cfg : Config) (w : World) (s s2 : Nat) (ipBody body : String) (r : CloudflareResponse)
    (hip : w.send ipRequest = HttpResult.response s ipBody)
    (hrec : w.send (recordRequest cfg) = HttpResult.response s2 body)
    (hdec : unmarshal body = Except.ok r) (hs : r.Success = false) :
    runUpdate unmarshal cfg w =
      Outcome.mk (lookupEvents cfg (trimSpace ipBody) ++
        [Event.print "Error in Cloudflare API response.\n"]) none := by
  unfold recordRequest at hrec
  simp [runUpdate, getExternalIP, executeRequest, hip, hrec, hdec, hs, lookupEvents,
    recordRequest]

theorem runUpdate_no_records (unmarshal : String → Except String CloudflareResponse)
    (cfg : Config) (w : World) (s s2 : Nat) (ipBody body : String) (r : CloudflareResponse)
    (hip : w.send ipRequest = HttpResult.response s ipBody)
    (hrec : w.send (recordRequest cfg) = HttpResult.response s2 body)
    (hdec : unmarshal body = Except.ok r) (hs : r.Success = true) (hr : r.Result = []) :
    runUpdate unmarshal cfg w =
      Outcome.mk (lookupEvents cfg (trimSpace ipBody) ++
        [Event.print "No DNS records found.\n"]) none := by
  unfold recordRequest at hrec
  simp [runUpdate, getExternalIP, executeRequest, hip, hrec, hdec, hs, hr, lookupEvents,
    recordRequest]

theorem runUpdate_unchanged (unmarshal : String → Except String CloudflareResponse)
    (cfg : Config) (w : World) (s s2 : Nat) (ipBody body : String) (r : CloudflareResponse)
    (record : DNSRecord) (rest : List DNSRecord)
    (hip : w.send ipRequest = HttpResult.response s ipBody)
    (hrec : w.send (recordRequest cfg) = HttpResult.response s2 body)
    (hdec : unmarshal body = Except.ok r) (hs : r.Success = true)
    (hr : r.Result = record :: rest) (hsame : trimSpace ipBody = record.Content) :
    runUpdate unmarshal cfg w =
      Outcome.mk (lookupEvents cfg (trimSpace ipBody) ++
        [Event.print ("  > Fetched current DNS record value   : " ++ record.Content ++ "\n"),
         Event.print ("Update for A record '" ++ record.ID ++
            "' cancelled.\n  Reason: IP has not changed.\n")]) none := by
  unfold recordRequest at hrec
  simp [runUpdate, getExternalIP, executeRequest, hip, hrec, hdec, hs, hr, hsame, lookupEvents,
    recordRequest]

theorem runUpdate_update_failed (unmarshal : String → Except String CloudflareResponse)
    (cfg : Config) (w : World) (s s2 : Nat) (ipBody body : String) (r : CloudflareResponse)
    (record : DNSRecord) (rest : List DNSRecord)
    (hip : w.send ipRequest = HttpResult.response s ipBody)
    (hrec : w.send (recordRequest cfg) = HttpResult.response s2 body)
    (hdec : unmarshal body = Except.ok r) (hs : r.Success = true)
    (hr : r.Result = record :: rest) (hdiff : trimSpace ipBody ≠ record.Content)
    (hput : (w.send (updateRequest cfg (trimSpace ipBody) record)).failed = true) :
    ∃ e, runUpdate unmarshal cfg w =
      Outcome.mk (lookupEvents cfg (trimSpace ipBody) ++
        updateEvents cfg (trimSpace ipBody) record) (some ("Update error: " ++ e)) := by
  unfold recordRequest at hrec
  unfold updateRequest at hput
  cases hp : w.send (Request.mk 10 "PUT" (updateURL cfg record)
      (some (jsonDataV4 cfg (trimSpace ipBody))) (headerAuthParamHeader cfg)) with
  | transportError e =>
    exact ⟨e, by simp [runUpdate, getExternalIP, executeRequest, hip, hrec, hdec, hs, hr, hdiff,
      hp, lookupEvents, updateEvents, recordRequest, updateRequest]⟩
  | bodyReadError e =>
    exact ⟨e, by simp [runUpdate, getExternalIP, executeRequest, hip, hrec, hdec, hs, hr, hdiff,
      hp, lookupEvents, updateEvents, recordRequest, updateRequest]⟩
  | response s b => simp [hp, HttpResult.failed] at hput

theorem runUpdate_update_answered (unmarshal : String → Except String CloudflareResponse)
    (cfg : Config) (w : World) (s s2 s3 : Nat) (ipBody body answer : String)
    (r : CloudflareResponse) (record : DNSRecord) (rest : List DNSRecord)
    (hip : w.send ipRequest = HttpResult.response s ipBody)
    (hrec : w.send (recordRequest cfg) = HttpResult.response s2 body)
    (hdec : unmarshal body = Except.ok r) (hs : r.Success = true)
    (hr : r.Result = record :: rest) (hdiff : trimSpace ipBody ≠ record.Content)
    (hput : w.send (updateRequest cfg (trimSpace ipBody) record) =
      HttpResult.response s3 answer) :
    runUpdate unmarshal cfg w =
      Outcome.mk (lookupEvents cfg (trimSpace ipBody) ++
        updateEvents cfg (trimSpace ipBody) record ++
        [Event.print ("Update for A record '" ++ record.ID ++ "' succeeded.\n  - Old value: " ++
          record.Content ++ "\n  + New value: " ++ trimSpace ipBody ++ "\n")]) none := by
  unfold recordRequest at hrec
  unfold updateRequest at hput
  simp [runUpdate, getExternalIP, executeRequest, hip, hrec, hdec, hs, hr, hdiff, hput,
    lookupEvents, updateEvents, recordRequest, updateRequest]

/-! ## The calls of a cycle -/

theorem requestsOf_append (a b : List Event) :
    requestsOf (a ++ b) = requestsOf a ++ requestsOf b := by
  induction a with
  | nil => rfl
  | cons e es ih => cases e <;> simp [requestsOf, ih]

theorem requestsOf_prints (texts : List String) : requestsOf (texts.map Event.print) = [] := by
  induction texts with
  | nil => rfl
  | cons t ts ih => simpa [requestsOf] using ih

theorem requestsOf_lookupEvents (cfg : Config) (ip : String) :
    requestsOf (lookupEvents cfg ip) = [ipRequest, recordRequest cfg] := rfl

theorem requestsOf_updateEvents (cfg : Config) (ip : String) (record : DNSRecord) :
    requestsOf (updateEvents cfg ip record) = [updateRequest cfg ip record] := rfl

theorem updates_of_lookup (cfg : Config) :
    [ipRequest, recordRequest cfg].filter (fun r => r.method == "PUT") = [] := by
  simp [ipRequest, recordRequest]

/-- Either the cycle ends after the record lookup, having only printed since,
or it reaches the update. -/
theorem runUpdate_inv (unmarshal : String → Except String CloudflareResponse)
    (cfg : Config) (w : World) (s : Nat) (ipBody : String)
    (hip : w.send ipRequest = HttpResult.response s ipBody) :
    (∃ (texts : List String) (err : Option String), runUpdate unmarshal cfg w =
      Outcome.mk (lookupEvents cfg (trimSpace ipBody) ++ texts.map Event.print) err) ∨
    (∃ s2 body r record rest,
      w.send (recordRequest cfg) = HttpResult.response s2 body ∧
      unmarshal body = Except.ok r ∧ r.Success = true ∧ r.Result = record :: rest ∧
      trimSpace ipBody ≠ record.Content) := by
  cases hrec : w.send (recordRequest cfg) with
  | transportError e =>
    obtain ⟨e', h⟩ := runUpdate_lookup_failed unmarshal cfg w s ipBody hip
      (by simp [hrec, HttpResult.failed])
    exact Or.inl ⟨[], _, by simpa using h⟩
  | bodyReadError e =>
    obtain ⟨e', h⟩ := runUpdate_lookup_failed unmarshal cfg w s ipBody hip
      (by simp [hrec, HttpResult.failed])
    exact Or.inl ⟨[], _, by simpa using h⟩
  | response s2 body =>
    cases hdec : unmarshal body with
    | error e =>
      exact Or.inl ⟨[], _, by
        simpa using runUpdate_decode_failed unmarshal cfg w s s2 ipBody body e hip hrec hdec⟩
    | ok r =>
      cases hs : r.Success with
      | false =>
        exact Or.inl ⟨["Error in Cloudflare API response.\n"], none, by
          simpa using runUpdate_not_success unmarshal cfg w s s2 ipBody body r hip hrec hdec hs⟩
      | true =>
        cases hr : r.Result with
        | nil =>
          exact Or.inl ⟨["No DNS records found.\n"], none, by
            simpa using
              runUpdate_no_records unmarshal cfg w s s2 ipBody body r hip hrec hdec hs hr⟩
        | cons record rest =>
          by_cases hsame : trimSpace ipBody = record.Content
          · exact Or.inl ⟨["  > Fetched current DNS record value   : " ++ record.Content ++ "\n",
              "Update for A record '" ++ record.ID ++
                "' cancelled.\n  Reason: IP has not changed.\n"], none, by
              simpa using runUpdate_unchanged unmarshal cfg w s s2 ipBody body r record rest
                hip hrec hdec hs hr hsame⟩
          · exact Or.inr ⟨s2, body, r, record, rest, rfl, hdec, hs, hr, hsame⟩

/-- After a successful IP lookup the calls of the cycle start with the IP
lookup and the record lookup. -/
theorem runUpdate_requests_prefix (unmarshal : String → Except String CloudflareResponse)
    (cfg : Config) (w : World) (s : Nat) (ipBody : String)
    (hip : w.send ipRequest = HttpResult.response s ipBody) :
    ∃ rest, (runUpdate unmarshal cfg w).requests = ipRequest :: recordRequest cfg :: rest := by
  rcases runUpdate_inv unmarshal cfg w s ipBody hip with
    ⟨texts, err, h⟩ | ⟨s2, body, r, record, rest, hrec, hdec, hs, hr, hdiff⟩
  · refine ⟨[], ?_⟩
    rw [Outcome.requests, h]
    simp [requestsOf_append, requestsOf_lookupEvents, requestsOf_prints]
  · refine ⟨[updateRequest cfg (trimSpace ipBody) record], ?_⟩
    cases hput : w.send (updateRequest cfg (trimSpace ipBody) record) with
    | transportError e =>
      obtain ⟨e', h⟩ := runUpdate_update_failed unmarshal cfg w s s2 ipBody body r record rest
        hip hrec hdec hs hr hdiff (by simp [hput, HttpResult.failed])
      rw [Outcome.requests, h]
      simp [requestsOf_append, requestsOf_lookupEvents, requestsOf_updateEvents]
    | bodyReadError e =>
      obtain ⟨e', h⟩ := runUpdate_update_failed unmarshal cfg w s s2 ipBody body r record rest
        hip hrec hdec hs hr hdiff (by simp [hput, HttpResult.failed])
      rw [Outcome.requests, h]
      simp [requestsOf_append, requestsOf_lookupEvents, requestsOf_updateEvents]
    | response s3 answer =>
      have h := runUpdate_update_answered unmarshal cfg w s s2 s3 ipBody body answer r record
        rest hip hrec hdec hs hr hdiff hput
      rw [Outcome.requests, h]
      simp [requestsOf_append, requestsOf_lookupEvents, requestsOf_updateEvents, requestsOf]

/-- A cycle that issued an update went through every test before it. -/
theorem runUpdate_update_inv (unmarshal : String → Except String CloudflareResponse)
    (cfg : Config) (w : World) (h : (runUpdate unmarshal cfg w).updates ≠ []) :
    ∃ s ipBody s2 body r record rest,
      w.send ipRequest = HttpResult.response s ipBody ∧
      w.send (recordRequest cfg) = HttpResult.response s2 body ∧
      unmarshal body = Except.ok r ∧ r.Success = true ∧ r.Result = record :: rest ∧
      trimSpace ipBody ≠ record.Content := by
  cases hip : w.send ipRequest with
  | transportError e =>
    obtain ⟨e', h'⟩ := runUpdate_ip_failed unmarshal cfg w (by simp [hip, HttpResult.failed])
    exact absurd (by rw [Outcome.updates, Outcome.requests, h']; simp [requestsOf, ipRequest]) h
  | bodyReadError e =>
    obtain ⟨e', h'⟩ := runUpdate_ip_failed unmarshal cfg w (by simp [hip, HttpResult.failed])
    exact absurd (by rw [Outcome.updates, Outcome.requests, h']; simp [requestsOf, ipRequest]) h
  | response s ipBody =>
    rcases runUpdate_inv unmarshal cfg w s ipBody hip with
      ⟨texts, err, h'⟩ | ⟨s2, body, r, record, rest, hrec, hdec, hs, hr, hdiff⟩
    · refine absurd ?_ h
      rw [Outcome.updates, Outcome.requests, h', requestsOf_append, requestsOf_lookupEvents,
        requestsOf_prints, List.append_nil, updates_of_lookup]
    · exact ⟨s, ipBody, s2, body, r, record, rest, rfl, hrec, hdec, hs, hr, hdiff⟩

/-! ## The claims -/

/-- C1: when the IP lookup and the record lookup both succeed, the response
decodes with `success` true and a first record whose content equals the
trimmed IP-lookup body (whatever records follow), the cycle issues exactly
the two lookups, no update request, and returns no error. -/
theorem C1_unchanged_ip_issues_no_update
    (unmarshal : String → Except String CloudflareResponse) (cfg : Config) (w : World)
    (s s2 : Nat) (ipBody body : String) (record : DNSRecord) (rest : List DNSRecord)
    (errors messages : List String)
    (hip : w.send ipRequest = HttpResult.response s ipBody)
    (hrec : w.send (recordRequest cfg) = HttpResult.response s2 body)
    (hdec : unmarshal body = Except.ok (CloudflareResponse.mk (record :: rest) true errors messages))
    (hsame : trimSpace ipBody = record.Content) :
    (runUpdate unmarshal cfg w).requests = [ipRequest, recordRequest cfg] ∧
    (runUpdate unmarshal cfg w).updates = [] ∧
    (runUpdate unmarshal cfg w).err = none := by
  have h := runUpdate_unchanged unmarshal cfg w s s2 ipBody body _ record rest hip hrec hdec
    rfl rfl hsame
  have hreq : (runUpdate unmarshal cfg w).requests = [ipRequest, recordRequest cfg] := by
    rw [Outcome.requests, h]
    simp [requestsOf_append, requestsOf_lookupEvents, requestsOf]
  refine ⟨hreq, ?_, ?_⟩
  · rw [Outcome.updates, hreq, updates_of_lookup]
  · rw [h]

/-- C1, the scenario of the claim: the IP lookup answers `203.0.113.5` and a
line feed, the record lookup answers the one record `abc123` with content
`203.0.113.5`; decoded by the model of `json.Unmarshal`, no update is issued
and no error returned. -/
theorem C1_unchanged_ip_issues_no_update_witness :
    trimSpace "203.0.113.5\n" = "203.0.113.5" ∧
    jsonUnmarshal sampleBody =
      Except.ok (CloudflareResponse.mk [DNSRecord.mk "abc123" "203.0.113.5"] true [] []) ∧
    (runUpdate jsonUnmarshal sampleConfig
      (sampleWorld (HttpResult.response 200 "203.0.113.5\n")
        (HttpResult.response 200 sampleBody))).requests =
      [ipRequest, recordRequest sampleConfig] ∧
    (runUpdate jsonUnmarshal sampleConfig
      (sampleWorld (HttpResult.response 200 "203.0.113.5\n")
        (HttpResult.response 200 sampleBody))).updates = [] ∧
    (runUpdate jsonUnmarshal sampleConfig
      (sampleWorld (HttpResult.response 200 "203.0.113.5\n")
        (HttpResult.response 200 sampleBody))).err = none :=
  ⟨by decide, by rfl,
    C1_unchanged_ip_issues_no_update jsonUnmarshal sampleConfig
      (sampleWorld (HttpResult.response 200 "203.0.113.5\n") (HttpResult.response 200 sampleBody))
      200 200 "203.0.113.5\n" sampleBody (DNSRecord.mk "abc123" "203.0.113.5") [] [] []
      (by rfl) (by rfl) (by rfl) (by decide)⟩

/-- C2: when both lookups succeed, the response decodes with `success` true
and a first record whose content differs from the trimmed IP-lookup body,
the cycle issues exactly one update request, as its third and last call: a
`PUT` to the zone's `dns_records/` path followed by the identifier of the
first record, with the headers of the record lookup (the bearer token). -/
theorem C2_changed_ip_issues_one_update
    (unmarshal : String → Except String CloudflareResponse) (cfg : Config) (w : World)
    (s s2 : Nat) (ipBody body : String) (record : DNSRecord) (rest : List DNSRecord)
    (errors messages : List String)
    (hip : w.send ipRequest = HttpResult.response s ipBody)
    (hrec : w.send (recordRequest cfg) = HttpResult.response s2 body)
    (hdec : unmarshal body = Except.ok (CloudflareResponse.mk (record :: rest) true errors messages))
    (hdiff : trimSpace ipBody ≠ record.Content) :
    ∃ put : Request,
      (runUpdate unmarshal cfg w).requests = [ipRequest, recordRequest cfg, put] ∧
      (runUpdate unmarshal cfg w).updates = [put] ∧
      put.method = "PUT" ∧
      put.url = "https://api.cloudflare.com/client/v4/zones/" ++ cfg.zoneIdentifier ++
        "/dns_records/" ++ record.ID ∧
      put.headers = (recordRequest cfg).headers ∧
      (cfg.authToken ≠ "" → put.headers = [("Authorization", "Bearer " ++ cfg.authToken)]) := by
  have hreq : (runUpdate unmarshal cfg w).requests =
      [ipRequest, recordRequest cfg, updateRequest cfg (trimSpace ipBody) record] := by
    cases hput : w.send (updateRequest cfg (trimSpace ipBody) record) with
    | transportError e =>
      obtain ⟨e', h⟩ := runUpdate_update_failed unmarshal cfg w s s2 ipBody body _ record rest
        hip hrec hdec rfl rfl hdiff (by simp [hput, HttpResult.failed])
      rw [Outcome.requests, h]
      simp [requestsOf_append, requestsOf_lookupEvents, requestsOf_updateEvents]
    | bodyReadError e =>
      obtain ⟨e', h⟩ := runUpdate_update_failed unmarshal cfg w s s2 ipBody body _ record rest
        hip hrec hdec rfl rfl hdiff (by simp [hput, HttpResult.failed])
      rw [Outcome.requests, h]
      simp [requestsOf_append, requestsOf_lookupEvents, requestsOf_updateEvents]
    | response s3 answer =>
      have h := runUpdate_update_answered unmarshal cfg w s s2 s3 ipBody body answer _ record
        rest hip hrec hdec rfl rfl hdiff hput
      rw [Outcome.requests, h]
      simp [requestsOf_append, requestsOf_lookupEvents, requestsOf_updateEvents, requestsOf]
  refine ⟨updateRequest cfg (trimSpace ipBody) record, hreq, ?_, rfl, rfl, rfl, ?_⟩
  · rw [Outcome.updates, hreq]
    simp [ipRequest, recordRequest, updateRequest]
  · intro htok
    simp [updateRequest, headerAuthParamHeader, htok]

/-- C2, the second scenario of the specification: the IP lookup answers
`203.0.113.9`, the record `abc123` holds `203.0.113.5`; one `PUT` goes to
`.../zones/zone1/dns_records/abc123` with the bearer token. -/
theorem C2_changed_ip_issues_one_update_witness :
    trimSpace "203.0.113.9\n" ≠ "203.0.113.5" ∧
    ∃ put : Request,
      (runUpdate jsonUnmarshal sampleConfig
        (sampleWorld (HttpResult.response 200 "203.0.113.9\n")
          (HttpResult.response 200 sampleBody))).requests =
        [ipRequest, recordRequest sampleConfig, put] ∧
      (runUpdate jsonUnmarshal sampleConfig
        (sampleWorld (HttpResult.response 200 "203.0.113.9\n")
          (HttpResult.response 200 sampleBody))).updates = [put] ∧
      put.method = "PUT" ∧
      put.url = "https://api.cloudflare.com/client/v4/zones/zone1/dns_records/abc123" ∧
      put.headers = (recordRequest sampleConfig).headers ∧
      (sampleConfig.authToken ≠ "" → put.headers = [("Authorization", "Bearer s3cr3t")]) :=
  ⟨by decide,
    C2_changed_ip_issues_one_update jsonUnmarshal sampleConfig
      (sampleWorld (HttpResult.response 200 "203.0.113.9\n") (HttpResult.response 200 sampleBody))
      200 200 "203.0.113.9\n" sampleBody (DNSRecord.mk "abc123" "203.0.113.5") [] [] []
      (by rfl) (by rfl) (by rfl) (by decide)⟩

set_option maxRecDepth 100000 in
/-- C3, evaluated on the second scenario of the specification (zone `zone1`,
record `abc123`, new address `203.0.113.9`): the body of the update carries
the zone identifier in its `id` member, not the identifier of the record, and
the identifier of the record occurs nowhere in it. -/
theorem C3_update_body_carries_zone_identifier :
    (runUpdate jsonUnmarshal sampleConfig
      (sampleWorld (HttpResult.response 200 "203.0.113.9\n")
        (HttpResult.response 200 sampleBody))).updates.map Request.data =
      [some ("\x7b\"id\":\"zone1\",\"type\":\"A\",\"proxied\":false," ++
        "\"name\":\"home.example.com\",\"content\":\"203.0.113.9\",\"ttl\":120\x7d")] ∧
    (runUpdate jsonUnmarshal sampleConfig
      (sampleWorld (HttpResult.response 200 "203.0.113.9\n")
        (HttpResult.response 200 sampleBody))).updates.map Request.data ≠
      [some ("\x7b\"id\":\"abc123\",\"type\":\"A\",\"proxied\":false," ++
        "\"name\":\"home.example.com\",\"content\":\"203.0.113.9\",\"ttl\":120\x7d")] ∧
    ¬ List.IsInfix "abc123".data
      (jsonDataV4 sampleConfig (trimSpace "203.0.113.9\n")).data := by
  refine ⟨by rfl, by decide, by decide⟩

/-- When both lookups succeed and the body of the record lookup decodes
without error to a response whose `Success` is false, the cycle takes the
branch of lines 88-91: no update request and no error.  When the body does
not decode, the cycle takes the branch of lines 84-86: no update request,
and the decoding error is returned. -/
theorem runUpdate_failure_flag_or_decode_error
    (unmarshal : String → Except String CloudflareResponse) (cfg : Config) (w : World)
    (s s2 : Nat) (ipBody body : String)
    (hip : w.send ipRequest = HttpResult.response s ipBody)
    (hrec : w.send (recordRequest cfg) = HttpResult.response s2 body) :
    (∀ r, unmarshal body = Except.ok r → r.Success = false →
      (runUpdate unmarshal cfg w).requests = [ipRequest, recordRequest cfg] ∧
      (runUpdate unmarshal cfg w).updates = [] ∧
      (runUpdate unmarshal cfg w).err = none) ∧
    (∀ e, unmarshal body = Except.error e →
      (runUpdate unmarshal cfg w).requests = [ipRequest, recordRequest cfg] ∧
      (runUpdate unmarshal cfg w).updates = [] ∧
      (runUpdate unmarshal cfg w).err = some ("Error decoding JSON response: " ++ e)) := by
  constructor
  · intro r hdec hs
    have h := runUpdate_not_success unmarshal cfg w s s2 ipBody body r hip hrec hdec hs
    have hreq : (runUpdate unmarshal cfg w).requests = [ipRequest, recordRequest cfg] := by
      rw [Outcome.requests, h]
      simp [requestsOf_append, requestsOf_lookupEvents, requestsOf]
    refine ⟨hreq, ?_, ?_⟩
    · rw [Outcome.updates, hreq, updates_of_lookup]
    · rw [h]
  · intro e hdec
    have h := runUpdate_decode_failed unmarshal cfg w s s2 ipBody body e hip hrec hdec
    have hreq : (runUpdate unmarshal cfg w).requests = [ipRequest, recordRequest cfg] := by
      rw [Outcome.requests, h, requestsOf_lookupEvents]
    refine ⟨hreq, ?_, ?_⟩
    · rw [Outcome.updates, hreq, updates_of_lookup]
    · rw [h]

/-- C4, evaluated on a failure response in the provider's own shape:
`authErrorBody` is a JSON object whose first member is `success:false` and
whose `errors` member holds an object.  Decoding it into
`CloudflareResponse`, whose `Errors` are declared as strings, fails, so the
cycle returns an error instead of ending quietly on the branch of lines
88-91.  No update is issued.  The same response with its errors written as
strings (`plainErrorBody`) does reach that branch and returns no error. -/
theorem C4_provider_failure_returns_error :
    (∃ members, parseJson authErrorBody =
      some (Json.object (("success", Json.bool false) :: members))) ∧
    (∃ e, jsonUnmarshal authErrorBody = Except.error e) ∧
    (runUpdate jsonUnmarshal sampleConfig
      (sampleWorld (HttpResult.response 200 "203.0.113.5\n")
        (HttpResult.response 403 authErrorBody))).err ≠ none ∧
    (runUpdate jsonUnmarshal sampleConfig
      (sampleWorld (HttpResult.response 200 "203.0.113.5\n")
        (HttpResult.response 403 authErrorBody))).updates = [] ∧
    jsonUnmarshal plainErrorBody =
      Except.ok (CloudflareResponse.mk [] false ["Authentication error"] []) ∧
    (runUpdate jsonUnmarshal sampleConfig
      (sampleWorld (HttpResult.response 200 "203.0.113.5\n")
        (HttpResult.response 403 plainErrorBody))).err = none ∧
    (runUpdate jsonUnmarshal sampleConfig
      (sampleWorld (HttpResult.response 200 "203.0.113.5\n")
        (HttpResult.response 403 plainErrorBody))).updates = [] :=
  ⟨⟨_, rfl⟩, ⟨_, rfl⟩, by decide, by rfl, by rfl, by rfl, by rfl⟩

/-- C5: when both lookups succeed and the response decodes to an empty result
list, the cycle issues no update request and returns no error, whatever the
success flag and whatever the fetched IP. -/
theorem C5_empty_result_is_benign
    (unmarshal : String → Except String CloudflareResponse) (cfg : Config) (w : World)
    (s s2 : Nat) (ipBody body : String) (r : CloudflareResponse)
    (hip : w.send ipRequest = HttpResult.response s ipBody)
    (hrec : w.send (recordRequest cfg) = HttpResult.response s2 body)
    (hdec : unmarshal body = Except.ok r) (hr : r.Result = []) :
    (runUpdate unmarshal cfg w).requests = [ipRequest, recordRequest cfg] ∧
    (runUpdate unmarshal cfg w).updates = [] ∧
    (runUpdate unmarshal cfg w).err = none := by
  have h : ∃ text, runUpdate unmarshal cfg w =
      Outcome.mk (lookupEvents cfg (trimSpace ipBody) ++ [Event.print text]) none := by
    cases hs : r.Success with
    | false => exact ⟨_, runUpdate_not_success unmarshal cfg w s s2 ipBody body r hip hrec hdec hs⟩
    | true => exact ⟨_, runUpdate_no_records unmarshal cfg w s s2 ipBody body r hip hrec hdec hs hr⟩
  obtain ⟨text, h⟩ := h
  have hreq : (runUpdate unmarshal cfg w).requests = [ipRequest, recordRequest cfg] := by
    rw [Outcome.requests, h]
    simp [requestsOf_append, requestsOf_lookupEvents, requestsOf]
  refine ⟨hreq, ?_, ?_⟩
  · rw [Outcome.updates, hreq, updates_of_lookup]
  · rw [h]

/-- C5 on concrete responses: an empty `result` array, a `null` result and an
absent result all decode to the empty list; with `success` true and an
empty array the cycle issues no update and returns no error. -/
theorem C5_empty_result_is_benign_witness :
    jsonUnmarshal "\x7b\"result\":[],\"success\":true\x7d" =
      Except.ok (CloudflareResponse.mk [] true [] []) ∧
    jsonUnmarshal "\x7b\"result\":null,\"success\":true\x7d" =
      Except.ok (CloudflareResponse.mk [] true [] []) ∧
    jsonUnmarshal "\x7b\"success\":true\x7d" = Except.ok (CloudflareResponse.mk [] true [] []) ∧
    (runUpdate jsonUnmarshal sampleConfig
      (sampleWorld (HttpResult.response 200 "203.0.113.5\n")
        (HttpResult.response 200 "\x7b\"result\":[],\"success\":true\x7d"))).requests =
        [ipRequest, recordRequest sampleConfig] ∧
    (runUpdate jsonUnmarshal sampleConfig
      (sampleWorld (HttpResult.response 200 "203.0.113.5\n")
        (HttpResult.response 200 "\x7b\"result\":[],\"success\":true\x7d"))).updates = [] ∧
    (runUpdate jsonUnmarshal sampleConfig
      (sampleWorld (HttpResult.response 200 "203.0.113.5\n")
        (HttpResult.response 200 "\x7b\"result\":[],\"success\":true\x7d"))).err = none :=
  ⟨by rfl, by rfl, by rfl,
    C5_empty_result_is_benign jsonUnmarshal sampleConfig
      (sampleWorld (HttpResult.response 200 "203.0.113.5\n")
        (HttpResult.response 200 "\x7b\"result\":[],\"success\":true\x7d"))
      200 200 "203.0.113.5\n" "\x7b\"result\":[],\"success\":true\x7d"
      (CloudflareResponse.mk [] true [] []) (by rfl) (by rfl) (by rfl) rfl⟩

/-- C6: a failed IP lookup (transport or body read) makes the cycle return an
error after that single call, with no DNS call; after a successful IP
lookup, a failed record lookup (transport or body read) or a body that does
not decode makes the cycle return an error after the two lookups, with no
update call. -/
theorem C6_failed_lookup_aborts_cycle
    (unmarshal : String → Except String CloudflareResponse) (cfg : Config) (w : World) :
    ((w.send ipRequest).failed = true →
      (runUpdate unmarshal cfg w).err ≠ none ∧
      (runUpdate unmarshal cfg w).requests = [ipRequest]) ∧
    (∀ s ipBody, w.send ipRequest = HttpResult.response s ipBody →
      ((w.send (recordRequest cfg)).failed = true ∨
        ∃ s2 body e, w.send (recordRequest cfg) = HttpResult.response s2 body ∧
          unmarshal body = Except.error e) →
      (runUpdate unmarshal cfg w).err ≠ none ∧
      (runUpdate unmarshal cfg w).requests = [ipRequest, recordRequest cfg] ∧
      (runUpdate unmarshal cfg w).updates = []) := by
  constructor
  · intro hfail
    obtain ⟨e, h⟩ := runUpdate_ip_failed unmarshal cfg w hfail
    rw [Outcome.requests, h]
    exact ⟨by simp, rfl⟩
  · intro s ipBody hip hcase
    have h : ∃ e, runUpdate unmarshal cfg w =
        Outcome.mk (lookupEvents cfg (trimSpace ipBody)) (some e) := by
      rcases hcase with hfail | ⟨s2, body, e, hrec, hdec⟩
      · obtain ⟨e, h⟩ := runUpdate_lookup_failed unmarshal cfg w s ipBody hip hfail
        exact ⟨_, h⟩
      · exact ⟨_, runUpdate_decode_failed unmarshal cfg w s s2 ipBody body e hip hrec hdec⟩
    obtain ⟨e, h⟩ := h
    have hreq : (runUpdate unmarshal cfg w).requests = [ipRequest, recordRequest cfg] := by
      rw [Outcome.requests, h, requestsOf_lookupEvents]
    refine ⟨?_, hreq, ?_⟩
    · rw [h]; simp
    · rw [Outcome.updates, hreq, updates_of_lookup]

/-- C6 on concrete worlds: an IP lookup whose transport fails; a record lookup
whose transport fails; a record lookup answered by a page that is not
JSON. -/
theorem C6_failed_lookup_aborts_cycle_witness :
    ((runUpdate jsonUnmarshal sampleConfig
        (sampleWorld (HttpResult.transportError "dial tcp: i/o timeout")
          (HttpResult.response 200 sampleBody))).err ≠ none ∧
      (runUpdate jsonUnmarshal sampleConfig
        (sampleWorld (HttpResult.transportError "dial tcp: i/o timeout")
          (HttpResult.response 200 sampleBody))).requests = [ipRequest]) ∧
    ((runUpdate jsonUnmarshal sampleConfig
        (sampleWorld (HttpResult.response 200 "203.0.113.9\n")
          (HttpResult.transportError "connection refused"))).err ≠ none ∧
      (runUpdate jsonUnmarshal sampleConfig
        (sampleWorld (HttpResult.response 200 "203.0.113.9\n")
          (HttpResult.transportError "connection refused"))).requests =
        [ipRequest, recordRequest sampleConfig] ∧
      (runUpdate jsonUnmarshal sampleConfig
        (sampleWorld (HttpResult.response 200 "203.0.113.9\n")
          (HttpResult.transportError "connection refused"))).updates = []) ∧
    ((runUpdate jsonUnmarshal sampleConfig
        (sampleWorld (HttpResult.response 200 "203.0.113.9\n")
          (HttpResult.response 502 "<html>Bad Gateway</html>"))).err ≠ none ∧
      (runUpdate jsonUnmarshal sampleConfig
        (sampleWorld (HttpResult.response 200 "203.0.113.9\n")
          (HttpResult.response 502 "<html>Bad Gateway</html>"))).requests =
        [ipRequest, recordRequest sampleConfig] ∧
      (runUpdate jsonUnmarshal sampleConfig
        (sampleWorld (HttpResult.response 200 "203.0.113.9\n")
          (HttpResult.response 502 "<html>Bad Gateway</html>"))).updates = []) :=
  ⟨(C6_failed_lookup_aborts_cycle jsonUnmarshal sampleConfig
      (sampleWorld (HttpResult.transportError "dial tcp: i/o timeout")
        (HttpResult.response 200 sampleBody))).1 (by rfl),
    (C6_failed_lookup_aborts_cycle jsonUnmarshal sampleConfig
      (sampleWorld (HttpResult.response 200 "203.0.113.9\n")
        (HttpResult.transportError "connection refused"))).2 200 "203.0.113.9\n" (by rfl)
      (Or.inl (by rfl)),
    (C6_failed_lookup_aborts_cycle jsonUnmarshal sampleConfig
      (sampleWorld (HttpResult.response 200 "203.0.113.9\n")
        (HttpResult.response 502 "<html>Bad Gateway</html>"))).2 200 "203.0.113.9\n" (by rfl)
      (Or.inr ⟨502, "<html>Bad Gateway</html>", "invalid JSON input", by rfl, by rfl⟩)⟩

/-- C7: with one of the three parameters empty, `main` only prints the usage
line: no cycle is run, no HTTP call is issued and nothing is scheduled.
With all three non-empty, `main` runs one cycle, reports its error if it
returned one, and only then registers the hourly job, starts the scheduler
and blocks; the calls of the process are those of that one cycle. -/
theorem C7_main_checks_parameters_then_runs_once
    (unmarshal : String → Except String CloudflareResponse) (cfg : Config) (w : World) :
    ((cfg.authToken = "" ∨ cfg.zoneIdentifier = "" ∨ cfg.recordName = "") →
      main unmarshal cfg w = [Event.print
        "Please provide all required parameters: -authToken, -zoneIdentifier, -recordName\n"] ∧
      requestsOf (main unmarshal cfg w) = [] ∧
      (∀ spec, Event.cronAddFunc spec ∉ main unmarshal cfg w) ∧
      Event.cronStart ∉ main unmarshal cfg w) ∧
    ((cfg.authToken ≠ "" ∧ cfg.zoneIdentifier ≠ "" ∧ cfg.recordName ≠ "") →
      (∃ report : List String,
        (report = [] ∨ ∃ e, (runUpdate unmarshal cfg w).err = some e ∧
          report = ["First update error: " ++ e ++ "\n"]) ∧
        main unmarshal cfg w = (runUpdate unmarshal cfg w).events ++ report.map Event.print ++
          [Event.cronAddFunc "@hourly", Event.cronStart, Event.block]) ∧
      requestsOf (main unmarshal cfg w) = (runUpdate unmarshal cfg w).requests) := by
  constructor
  · intro h
    have hm : main unmarshal cfg w = [Event.print
        "Please provide all required parameters: -authToken, -zoneIdentifier, -recordName\n"] := by
      unfold main
      rw [if_pos]
      simpa [or_assoc] using h
    rw [hm]
    simp [requestsOf]
  · rintro ⟨h1, h2, h3⟩
    have hm : main unmarshal cfg w =
        (match (runUpdate unmarshal cfg w).err with
          | some err => (runUpdate unmarshal cfg w).events ++
              [Event.print ("First update error: " ++ err ++ "\n")]
          | none => (runUpdate unmarshal cfg w).events) ++
          [Event.cronAddFunc "@hourly", Event.cronStart, Event.block] := by
      unfold main
      rw [if_neg]
      simp [h1, h2, h3]
    cases herr : (runUpdate unmarshal cfg w).err with
    | none =>
      rw [herr] at hm
      refine ⟨⟨[], Or.inl rfl, by simpa using hm⟩, ?_⟩
      rw [hm, requestsOf_append, Outcome.requests]
      simp [requestsOf]
    | some e =>
      rw [herr] at hm
      refine ⟨⟨["First update error: " ++ e ++ "\n"], Or.inr ⟨e, rfl, rfl⟩, by simpa using hm⟩, ?_⟩
      rw [hm, requestsOf_append, requestsOf_append, Outcome.requests]
      simp [requestsOf]

/-- C7 on concrete inputs: without a token, `main` only prints the usage
line; with all parameters and an IP lookup that fails, the first cycle
returns an error, which is printed, and the hourly job is still registered
and started. -/
theorem C7_main_checks_parameters_then_runs_once_witness :
    (main jsonUnmarshal (Config.mk "" "zone1" "home.example.com")
        (sampleWorld (HttpResult.response 200 "203.0.113.9\n")
          (HttpResult.response 200 sampleBody)) =
      [Event.print
        "Please provide all required parameters: -authToken, -zoneIdentifier, -recordName\n"] ∧
      requestsOf (main jsonUnmarshal (Config.mk "" "zone1" "home.example.com")
        (sampleWorld (HttpResult.response 200 "203.0.113.9\n")
          (HttpResult.response 200 sampleBody))) = [] ∧
      (∀ spec, Event.cronAddFunc spec ∉ main jsonUnmarshal
        (Config.mk "" "zone1" "home.example.com")
        (sampleWorld (HttpResult.response 200 "203.0.113.9\n")
          (HttpResult.response 200 sampleBody))) ∧
      Event.cronStart ∉ main jsonUnmarshal (Config.mk "" "zone1" "home.example.com")
        (sampleWorld (HttpResult.response 200 "203.0.113.9\n")
          (HttpResult.response 200 sampleBody))) ∧
    main jsonUnmarshal sampleConfig
        (sampleWorld (HttpResult.transportError "no route to host")
          (HttpResult.response 200 sampleBody)) =
      [Event.print "Check Initiated\n", Event.http ipRequest,
       Event.print ("First update error: Network error, cannot fetch external network IP: " ++
         "no route to host\n"),
       Event.cronAddFunc "@hourly", Event.cronStart, Event.block] ∧
    requestsOf (main jsonUnmarshal sampleConfig
        (sampleWorld (HttpResult.transportError "no route to host")
          (HttpResult.response 200 sampleBody))) =
      (runUpdate jsonUnmarshal sampleConfig
        (sampleWorld (HttpResult.transportError "no route to host")
          (HttpResult.response 200 sampleBody))).requests :=
  ⟨(C7_main_checks_parameters_then_runs_once jsonUnmarshal
      (Config.mk "" "zone1" "home.example.com")
      (sampleWorld (HttpResult.response 200 "203.0.113.9\n")
        (HttpResult.response 200 sampleBody))).1 (Or.inl rfl),
    by rfl,
    ((C7_main_checks_parameters_then_runs_once jsonUnmarshal sampleConfig
      (sampleWorld (HttpResult.transportError "no route to host")
        (HttpResult.response 200 sampleBody))).2 ⟨by decide, by decide, by decide⟩).2⟩

/-- C8, evaluated on the second scenario of the specification: the three calls
of the cycle go through clients whose timeouts are none (`0`), ten seconds
and ten seconds; the IP lookup is the one without a timeout. -/
theorem C8_ip_lookup_has_no_timeout :
    (runUpdate jsonUnmarshal sampleConfig
      (sampleWorld (HttpResult.response 200 "203.0.113.9\n")
        (HttpResult.response 200 sampleBody))).requests.map Request.timeout = [0, 10, 10] ∧
    (runUpdate jsonUnmarshal sampleConfig
      (sampleWorld (HttpResult.response 200 "203.0.113.9\n")
        (HttpResult.response 200 sampleBody))).requests.map Request.url =
      ["https://icanhazip.com/",
       "https://api.cloudflare.com/client/v4/zones/zone1/dns_records?name=home.example.com&type=A",
       "https://api.cloudflare.com/client/v4/zones/zone1/dns_records/abc123"] := by
  exact ⟨by rfl, by rfl⟩

/-- C9: after a successful IP lookup, whatever the token, the first two calls
of the cycle are the IP lookup, a `GET` with no body and no header, and the
record lookup: a `GET` with no body to the zone's `dns_records` path with
`name` and `type=A` in the query, the configured values inserted as they
are.  The headers of the record lookup are the single header
`Authorization: Bearer` and the token when the token is not empty, and none
when it is empty. -/
theorem C9_record_lookup_request
    (unmarshal : String → Except String CloudflareResponse) (cfg : Config) (w : World)
    (s : Nat) (ipBody : String)
    (hip : w.send ipRequest = HttpResult.response s ipBody) :
    ∃ headers : List (String × String),
      (runUpdate unmarshal cfg w).requests.take 2 =
        [Request.mk 0 "GET" "https://icanhazip.com/" none [],
         Request.mk 10 "GET"
          ("https://api.cloudflare.com/client/v4/zones/" ++ cfg.zoneIdentifier ++
            "/dns_records?name=" ++ cfg.recordName ++ "&type=A")
          none headers] ∧
      (cfg.authToken ≠ "" → headers = [("Authorization", "Bearer " ++ cfg.authToken)]) ∧
      (cfg.authToken = "" → headers = []) := by
  obtain ⟨rest, h⟩ := runUpdate_requests_prefix unmarshal cfg w s ipBody hip
  refine ⟨headerAuthParamHeader cfg, ?_, ?_, ?_⟩
  · rw [h]
    simp [ipRequest, recordRequest, seekCurrentDNSValueURL]
  · intro htok
    simp [headerAuthParamHeader, htok]
  · intro htok
    simp [headerAuthParamHeader, htok]

/-- C9 on the first scenario of the specification, with the token `s3cr3t`
and with an empty token. -/
theorem C9_record_lookup_request_witness :
    (∃ headers : List (String × String),
      (runUpdate jsonUnmarshal sampleConfig
        (sampleWorld (HttpResult.response 200 "203.0.113.5\n")
          (HttpResult.response 200 sampleBody))).requests.take 2 =
        [Request.mk 0 "GET" "https://icanhazip.com/" none [],
         Request.mk 10 "GET"
          ("https://api.cloudflare.com/client/v4/zones/" ++ sampleConfig.zoneIdentifier ++
            "/dns_records?name=" ++ sampleConfig.recordName ++ "&type=A")
          none headers] ∧
      (sampleConfig.authToken ≠ "" →
        headers = [("Authorization", "Bearer " ++ sampleConfig.authToken)]) ∧
      (sampleConfig.authToken = "" → headers = [])) ∧
    (runUpdate jsonUnmarshal sampleConfig
      (sampleWorld (HttpResult.response 200 "203.0.113.5\n")
        (HttpResult.response 200 sampleBody))).requests.take 2 =
      [Request.mk 0 "GET" "https://icanhazip.com/" none [],
       Request.mk 10 "GET"
        "https://api.cloudflare.com/client/v4/zones/zone1/dns_records?name=home.example.com&type=A"
        none [("Authorization", "Bearer s3cr3t")]] ∧
    (runUpdate jsonUnmarshal (Config.mk "" "zone1" "home.example.com")
      (sampleWorld (HttpResult.response 200 "203.0.113.5\n")
        (HttpResult.response 200 sampleBody))).requests.take 2 =
      [Request.mk 0 "GET" "https://icanhazip.com/" none [],
       Request.mk 10 "GET"
        "https://api.cloudflare.com/client/v4/zones/zone1/dns_records?name=home.example.com&type=A"
        none []] :=
  ⟨C9_record_lookup_request jsonUnmarshal sampleConfig
    (sampleWorld (HttpResult.response 200 "203.0.113.5\n") (HttpResult.response 200 sampleBody))
    200 "203.0.113.5\n" (by rfl), by rfl, by rfl⟩

/-- C10: in a cycle that issued an update request, that request is the only
update; the cycle returns an error exactly when the call failed (transport
or body read); and whenever a response came back, whatever its status and
body, the cycle returns no error and its last output line reports the
update as succeeded. -/
theorem C10_update_response_is_not_inspected
    (unmarshal : String → Except String CloudflareResponse) (cfg : Config) (w : World)
    (h : (runUpdate unmarshal cfg w).updates ≠ []) :
    ∃ put : Request,
      (runUpdate unmarshal cfg w).updates = [put] ∧
      ((runUpdate unmarshal cfg w).err ≠ none ↔ (w.send put).failed = true) ∧
      (∀ status answer, w.send put = HttpResult.response status answer →
        (runUpdate unmarshal cfg w).err = none ∧
        ∃ id old new, (outputOf (runUpdate unmarshal cfg w).events).getLast? =
          some ("Update for A record '" ++ id ++ "' succeeded.\n  - Old value: " ++ old ++
            "\n  + New value: " ++ new ++ "\n")) := by
  obtain ⟨s, ipBody, s2, body, r, record, rest, hip, hrec, hdec, hs, hr, hdiff⟩ :=
    runUpdate_update_inv unmarshal cfg w h
  refine ⟨updateRequest cfg (trimSpace ipBody) record, ?_⟩
  cases hput : w.send (updateRequest cfg (trimSpace ipBody) record) with
  | transportError e =>
    obtain ⟨e', h'⟩ := runUpdate_update_failed unmarshal cfg w s s2 ipBody body r record rest
      hip hrec hdec hs hr hdiff (by simp [hput, HttpResult.failed])
    rw [Outcome.updates, Outcome.requests, h']
    simp [requestsOf_append, requestsOf_lookupEvents, requestsOf_updateEvents, ipRequest,
      recordRequest, updateRequest, HttpResult.failed]
  | bodyReadError e =>
    obtain ⟨e', h'⟩ := runUpdate_update_failed unmarshal cfg w s s2 ipBody body r record rest
      hip hrec hdec hs hr hdiff (by simp [hput, HttpResult.failed])
    rw [Outcome.updates, Outcome.requests, h']
    simp [requestsOf_append, requestsOf_lookupEvents, requestsOf_updateEvents, ipRequest,
      recordRequest, updateRequest, HttpResult.failed]
  | response s3 answer =>
    have h' := runUpdate_update_answered unmarshal cfg w s s2 s3 ipBody body answer r record
      rest hip hrec hdec hs hr hdiff hput
    rw [Outcome.updates, Outcome.requests, h']
    refine ⟨?_, ?_, ?_⟩
    · simp [requestsOf_append, requestsOf_lookupEvents, requestsOf_updateEvents, requestsOf,
        ipRequest, recordRequest, updateRequest]
    · simp [HttpResult.failed]
    · intro status answer' _
      refine ⟨rfl, record.ID, record.Content, trimSpace ipBody, ?_⟩
      simp [lookupEvents, updateEvents, outputOf]

/-- C10 on a concrete world: the address changed, and the update is answered
with status 400 and a body that reports failure; the cycle still returns no
error and reports success. -/
theorem C10_update_response_is_not_inspected_witness :
    (runUpdate jsonUnmarshal sampleConfig
      (scenarioWorld (HttpResult.response 200 "203.0.113.9\n")
        (HttpResult.response 200 sampleBody)
        (HttpResult.response 400 "\x7b\"success\":false\x7d"))).err = none ∧
    (outputOf (runUpdate jsonUnmarshal sampleConfig
      (scenarioWorld (HttpResult.response 200 "203.0.113.9\n")
        (HttpResult.response 200 sampleBody)
        (HttpResult.response 400 "\x7b\"success\":false\x7d"))).events).getLast? =
      some ("Update for A record 'abc123' succeeded.\n  - Old value: 203.0.113.5\n" ++
        "  + New value: 203.0.113.9\n") ∧
    ∃ put : Request,
      (runUpdate jsonUnmarshal sampleConfig
        (scenarioWorld (HttpResult.response 200 "203.0.113.9\n")
          (HttpResult.response 200 sampleBody)
          (HttpResult.response 400 "\x7b\"success\":false\x7d"))).updates = [put] ∧
      ((runUpdate jsonUnmarshal sampleConfig
        (scenarioWorld (HttpResult.response 200 "203.0.113.9\n")
          (HttpResult.response 200 sampleBody)
          (HttpResult.response 400 "\x7b\"success\":false\x7d"))).err ≠ none ↔
        ((scenarioWorld (HttpResult.response 200 "203.0.113.9\n")
          (HttpResult.response 200 sampleBody)
          (HttpResult.response 400 "\x7b\"success\":false\x7d")).send put).failed = true) ∧
      (∀ status answer,
        (scenarioWorld (HttpResult.response 200 "203.0.113.9\n")
          (HttpResult.response 200 sampleBody)
          (HttpResult.response 400 "\x7b\"success\":false\x7d")).send put =
          HttpResult.response status answer →
        (runUpdate jsonUnmarshal sampleConfig
          (scenarioWorld (HttpResult.response 200 "203.0.113.9\n")
            (HttpResult.response 200 sampleBody)
            (HttpResult.response 400 "\x7b\"success\":false\x7d"))).err = none ∧
        ∃ id old new, (outputOf (runUpdate jsonUnmarshal sampleConfig
          (scenarioWorld (HttpResult.response 200 "203.0.113.9\n")
            (HttpResult.response 200 sampleBody)
            (HttpResult.response 400 "\x7b\"success\":false\x7d"))).events).getLast? =
          some ("Update for A record '" ++ id ++ "' succeeded.\n  - Old value: " ++ old ++
            "\n  + New value: " ++ new ++ "\n")) :=
  ⟨by rfl, by rfl,
    C10_update_response_is_not_inspected jsonUnmarshal sampleConfig
      (scenarioWorld (HttpResult.response 200 "203.0.113.9\n")
        (HttpResult.response 200 sampleBody)
        (HttpResult.response 400 "\x7b\"success\":false\x7d"))
      (by decide)⟩

end CloudflareDDNS
